import Mathlib

/-!
Verification of the todo backend's resource-management layer.

The development shallowly embeds the TypeScript sources:
the mongoose schema in src/models/Todo.ts, the domain service in
src/services/todoService.ts, and the controller in src/controllers.
The document store is modelled as an explicit list of records, and all
storage-side behaviour of mongoose (id validity checks, schema setters
that trim strings, validators, timestamps) is made explicit.
-/

namespace TodoApp

/-- Whitespace characters removed by the JavaScript trim operation
(restricted to the characters that can appear in the scenarios considered):
space, tab, line feed, carriage return, vertical tab, form feed,
no-break space. -/
def isJsWhitespace (c : Char) : Bool :=
  c = ' ' || c = '\t' || c = '\n' || c = '\r' || c = '\x0b' || c = '\x0c' || c = '\xa0'

/-- Drop whitespace from the front of a character list. -/
def trimLeftChars (l : List Char) : List Char :=
  l.dropWhile isJsWhitespace

/-- Drop whitespace from the back of a character list. -/
def trimRightChars (l : List Char) : List Char :=
  (l.reverse.dropWhile isJsWhitespace).reverse

/-- Model of the JavaScript string trim method (also applied by the mongoose
schema setter declared with trim set to true in src/models/Todo.ts):
removes leading and trailing whitespace. -/
def jsTrim (s : String) : String :=
  ⟨trimRightChars (trimLeftChars s.data)⟩

/-- Hexadecimal digit test, used by the ObjectId format check. -/
def isHexDigitChar (c : Char) : Bool :=
  c.isDigit || ('a' ≤ c && c ≤ 'f') || ('A' ≤ c && c ≤ 'F')

/-- Model of mongoose.Types.ObjectId.isValid on a string argument: true for a
24-character hexadecimal string, and also for any 12-character string
(mongoose accepts a 12-byte value as an id). -/
def isValidObjectId (s : String) : Bool :=
  (s.length == 24 && s.data.all isHexDigitChar) || s.length == 12

/-- A stored todo document, as declared by the schema in src/models/Todo.ts.
Timestamps are modelled as natural numbers. -/
structure Todo where
  id : String
  title : String
  description : Option String
  completed : Bool
  createdAt : Nat
  updatedAt : Nat
  deriving DecidableEq, Repr

/-- The document store: the todos collection, in insertion order. -/
structure StoreState where
  todos : List Todo
  deriving DecidableEq, Repr

/-- Request body of the create endpoint (src/types/todo.ts,
CreateTodoRequest); title is optional here because the runtime value may be
absent, which the controller checks. -/
structure CreateTodoRequest where
  title : Option String
  description : Option String
  deriving DecidableEq, Repr

/-- Request body of the update endpoint (src/types/todo.ts,
UpdateTodoRequest); a field that is none is absent from the request. -/
structure UpdateTodoRequest where
  title : Option String
  description : Option String
  completed : Option Bool
  deriving DecidableEq, Repr

/-- The status filter values of src/types/todo.ts (TodoStatus). -/
inductive TodoStatus where
  | all
  | completed
  | pending
  deriving DecidableEq, Repr

/-- Lookup of a document by id in the collection (mongoose findById once the
id is known to be well formed). -/
def findTodo (s : StoreState) (id : String) : Option Todo :=
  s.todos.find? (fun t => t.id == id)

/-- Replace every document carrying the given id (ids are unique in the real
store, so this replaces the one matching document). -/
def replaceTodo (s : StoreState) (t' : Todo) : StoreState :=
  ⟨s.todos.map (fun u => if u.id == t'.id then t' else u)⟩

/-- Remove every document carrying the given id (mongoose
findByIdAndDelete; ids are unique in the real store). -/
def removeTodo (s : StoreState) (id : String) : StoreState :=
  ⟨s.todos.filter (fun u => !(u.id == id))⟩

/-- Validation messages produced by the schema of src/models/Todo.ts on a
document whose fields have already passed through the trim setters: title
required, title at most 200 characters, description at most 1000
characters. -/
def schemaValidationErrors (title : String) (descr : Option String) : List String :=
  (if title = "" then ["Title is required"] else []) ++
  (if title.length > 200 then ["Title cannot exceed 200 characters"] else []) ++
  (if (descr.getD "").length > 1000 then ["Description cannot exceed 1000 characters"] else [])

/-- Model of saving a freshly constructed document (the save call inside
TodoService.createTodo): the schema setters trim title and description, the
validators run, and on success the document is appended to the collection
with both timestamps set to the current time and the store-assigned id. -/
def mongooseSaveNew (s : StoreState) (now : Nat) (freshId : String)
    (title0 : String) (descr0 : Option String) :
    Except (List String) (Todo × StoreState) :=
  let title := jsTrim title0
  let descr := descr0.map jsTrim
  match schemaValidationErrors title descr with
  | [] =>
      let t : Todo := ⟨freshId, title, descr, false, now, now⟩
      .ok (t, ⟨s.todos ++ [t]⟩)
  | errs => .error errs

/-- Model of mongoose findById called directly: a malformed id makes the
driver raise a cast error, which the error value records. -/
def mongooseFindById (s : StoreState) (id : String) : Except String (Option Todo) :=
  if isValidObjectId id then .ok (findTodo s id) else .error "CastError"

/-- TodoService.getTodoById: the id is checked for validity first and an
invalid id yields null without any storage call; otherwise findById runs. -/
def TodoService.getTodoById (s : StoreState) (id : String) :
    Except String (Option Todo) :=
  if isValidObjectId id then mongooseFindById s id else .ok none

/-- TodoService.createTodo: builds a new document with completed set to
false from the given title and description and saves it. -/
def TodoService.createTodo (s : StoreState) (now : Nat) (freshId : String)
    (title : String) (descr : Option String) :
    Except (List String) (Todo × StoreState) :=
  mongooseSaveNew s now freshId title descr

/-- Validation messages produced when the update validators run
(runValidators set to true in TodoService.updateTodo), checking each path
present in the update after the trim setters. -/
def updateValidationErrors (upd : UpdateTodoRequest) : List String :=
  (match upd.title with
   | some ttl =>
       (if jsTrim ttl = "" then ["Title is required"] else []) ++
       (if (jsTrim ttl).length > 200 then ["Title cannot exceed 200 characters"] else [])
   | none => []) ++
  (match upd.description with
   | some d =>
       if (jsTrim d).length > 1000 then ["Description cannot exceed 1000 characters"] else []
   | none => [])

/-- Apply an update document to a stored todo: each present field is
trimmed by the schema setters and replaces the stored value, absent fields
keep their stored values, and updatedAt is set to the current time (the
service passes updatedAt explicitly and the schema timestamps refresh it as
well). -/
def applyUpdate (t : Todo) (upd : UpdateTodoRequest) (now : Nat) : Todo :=
  { t with
    title := (upd.title.map jsTrim).getD t.title
    description := match upd.description with
      | some d => some (jsTrim d)
      | none => t.description
    completed := upd.completed.getD t.completed
    updatedAt := now }

/-- Model of mongoose findByIdAndUpdate with runValidators and the new
option: a malformed id raises a cast error, the update validators run, a
missing document yields null, otherwise the updated document is stored and
returned. -/
def mongooseFindByIdAndUpdate (s : StoreState) (id : String)
    (upd : UpdateTodoRequest) (now : Nat) :
    Except (List String) (Option Todo × StoreState) :=
  if isValidObjectId id then
    match updateValidationErrors upd with
    | [] =>
        match findTodo s id with
        | none => .ok (none, s)
        | some t =>
            let t' := applyUpdate t upd now
            .ok (some t', replaceTodo s t')
    | errs => .error errs
  else .error ["CastError"]

/-- TodoService.updateTodo: an invalid id yields null before any storage
call; otherwise findByIdAndUpdate runs with updatedAt refreshed. -/
def TodoService.updateTodo (s : StoreState) (now : Nat) (id : String)
    (upd : UpdateTodoRequest) :
    Except (List String) (Option Todo × StoreState) :=
  if isValidObjectId id then mongooseFindByIdAndUpdate s id upd now
  else .ok (none, s)

/-- TodoService.toggleTodo: an invalid id yields null; otherwise the
document is read, its completed flag flipped, and the document saved, which
refreshes updatedAt. -/
def TodoService.toggleTodo (s : StoreState) (now : Nat) (id : String) :
    Option Todo × StoreState :=
  if isValidObjectId id then
    match findTodo s id with
    | none => (none, s)
    | some t =>
        let t' := { t with completed := !t.completed, updatedAt := now }
        (some t', replaceTodo s t')
  else (none, s)

/-- TodoService.deleteTodo: an invalid id yields false; otherwise
findByIdAndDelete removes the matching document and the result says whether
one was removed. -/
def TodoService.deleteTodo (s : StoreState) (id : String) : Bool × StoreState :=
  if isValidObjectId id then
    match findTodo s id with
    | none => (false, s)
    | some _ => (true, removeTodo s id)
  else (false, s)

/-- The mongo filter built from the status parameter in
TodoService.getAllTodos and TodoService.getTodosPaginated: completed for
the completed status, not completed for pending, and no filter otherwise. -/
def statusFilter (status : Option TodoStatus) (t : Todo) : Bool :=
  match status with
  | some .completed => t.completed
  | some .pending => !t.completed
  | _ => true

/-- Insert a todo into a list that is ordered by creation time descending,
keeping it ordered. -/
def insertDesc (t : Todo) : List Todo → List Todo
  | [] => [t]
  | u :: us => if u.createdAt ≤ t.createdAt then t :: u :: us else u :: insertDesc t us

/-- Sort by creation time, newest first (the sort on createdAt descending
used by the find queries), written as an insertion sort so that it is
executable by evaluation. -/
def sortByCreatedAtDesc (ts : List Todo) : List Todo :=
  ts.foldr insertDesc []

/-- The data returned by TodoService.getTodosPaginated. -/
structure PaginatedResult where
  todos : List Todo
  total : Nat
  page : Nat
  totalPages : Nat
  deriving DecidableEq, Repr

/-- TodoService.getTodosPaginated: the find query with the status filter,
sorted newest first, skipping (page - 1) * limit documents and taking at
most limit; the count query uses the same filter; totalPages is the ceiling
of total over limit, written here in natural-number arithmetic. -/
def TodoService.getTodosPaginated (s : StoreState) (page limit : Nat)
    (status : Option TodoStatus) : PaginatedResult :=
  let filtered := (sortByCreatedAtDesc s.todos).filter (statusFilter status)
  let skip := (page - 1) * limit
  let items := (filtered.drop skip).take limit
  let total := (s.todos.filter (statusFilter status)).length
  let totalPages := (total + limit - 1) / limit
  ⟨items, total, page, totalPages⟩

/-- Outcome of the create endpoint as shaped by TodoController.createTodo. -/
inductive CreateResponse where
  | created (t : Todo)
  | validationFailed (msg : String)
  | serverError (msg : String)
  deriving DecidableEq, Repr

/-- TodoController.createTodo: rejects a missing title or a title that
trims to the empty string before calling the service; otherwise calls the
service with trimmed title and description. -/
def TodoController.createTodo (s : StoreState) (now : Nat) (freshId : String)
    (req : CreateTodoRequest) : CreateResponse × StoreState :=
  match req.title with
  | none => (.validationFailed "Title is required", s)
  | some title =>
      if title == "" || (jsTrim title).length == 0 then
        (.validationFailed "Title is required", s)
      else
        match TodoService.createTodo s now freshId (jsTrim title) (req.description.map jsTrim) with
        | .ok (t, s') => (.created t, s')
        | .error _ => (.serverError "Failed to create todo", s)

/-- Outcome of the update endpoint as shaped by TodoController.updateTodo. -/
inductive UpdateResponse where
  | updated (t : Todo)
  | validationFailed (msg : String)
  | notFound
  | serverError (msg : String)
  deriving DecidableEq, Repr

/-- TodoController.updateTodo: rejects a present title that trims to the
empty string before calling the service; otherwise calls the service with
the present fields trimmed; a null service result maps to not found. -/
def TodoController.updateTodo (s : StoreState) (now : Nat) (id : String)
    (upd : UpdateTodoRequest) : UpdateResponse × StoreState :=
  if (upd.title.map (fun t0 => (jsTrim t0).length == 0)).getD false then
    (.validationFailed "Title cannot be empty", s)
  else
    match TodoService.updateTodo s now id
        ⟨upd.title.map jsTrim, upd.description.map jsTrim, upd.completed⟩ with
    | .ok (some t, s') => (.updated t, s')
    | .ok (none, s') => (.notFound, s')
    | .error _ => (.serverError "Failed to update todo", s)

/-- The pagination block of the paginated endpoint response. -/
structure Pagination where
  page : Nat
  limit : Nat
  total : Nat
  totalPages : Nat
  hasNext : Bool
  hasPrev : Bool
  deriving DecidableEq, Repr

/-- TodoController.getPaginatedTodos: page below 1 or limit outside 1..100
is rejected (none); otherwise the service result is wrapped with hasNext
when page is below totalPages and hasPrev when page is above 1. -/
def TodoController.getPaginatedTodos (s : StoreState) (page limit : Nat)
    (status : Option TodoStatus) : Option (List Todo × Pagination) :=
  if page < 1 || limit < 1 || limit > 100 then none
  else
    let r := TodoService.getTodosPaginated s page limit status
    some (r.todos,
      ⟨r.page, limit, r.total, r.totalPages,
        decide (r.page < r.totalPages), decide (r.page > 1)⟩)

/-- The trim invariant on a stored document: title carries no surrounding
whitespace and is nonempty, and the description, when present, carries no
surrounding whitespace. -/
def todoTrimInv (t : Todo) : Bool :=
  (jsTrim t.title == t.title) && (!(t.title == "")) &&
    t.description.all (fun d => jsTrim d == d)

/-- A static 25-item collection for the pagination scenario, with distinct
creation times 0 to 24. -/
def store25 : StoreState :=
  ⟨(List.range 25).map (fun i => ⟨"", "t", none, false, i, i⟩)⟩

theorem dropWhile_idem {α : Type} (p : α → Bool) (l : List α) :
    (l.dropWhile p).dropWhile p = l.dropWhile p := by
  induction l with
  | nil => rfl
  | cons a l ih =>
    rw [List.dropWhile_cons]
    by_cases h : p a = true
    · simp [h, ih]
    · simp [h, List.dropWhile_cons]

theorem dropWhile_append_last {α : Type} (p : α → Bool) (a : α) (h : p a = false)
    (l : List α) : (l ++ [a]).dropWhile p = l.dropWhile p ++ [a] := by
  induction l with
  | nil => simp [List.dropWhile_cons, h]
  | cons x xs ih =>
    rw [List.cons_append, List.dropWhile_cons, List.dropWhile_cons]
    by_cases hx : p x = true
    · simp [hx, ih]
    · simp [hx]

theorem trimLeftChars_head_not_ws (l : List Char) (a : Char) (rest : List Char)
    (h : trimLeftChars l = a :: rest) : isJsWhitespace a = false := by
  induction l generalizing a rest with
  | nil => exact absurd h (by simp [trimLeftChars])
  | cons x xs ih =>
    cases hx : isJsWhitespace x with
    | true =>
      have h' : trimLeftChars xs = a :: rest := by
        simpa [trimLeftChars, List.dropWhile_cons, hx] using h
      exact ih a rest h'
    | false =>
      have hxa : x = a := by
        simp [trimLeftChars, List.dropWhile_cons, hx] at h
        exact h.1
      subst hxa
      exact hx

theorem trimRightChars_cons (a : Char) (l : List Char)
    (h : isJsWhitespace a = false) :
    trimRightChars (a :: l) = a :: trimRightChars l := by
  unfold trimRightChars
  rw [List.reverse_cons, dropWhile_append_last _ _ h, List.reverse_append]
  simp

theorem trimLeftChars_trimRightChars (l : List Char) (h : trimLeftChars l = l) :
    trimLeftChars (trimRightChars l) = trimRightChars l := by
  cases hl : l with
  | nil => simp [trimRightChars, trimLeftChars]
  | cons a rest =>
    have ha : isJsWhitespace a = false :=
      trimLeftChars_head_not_ws l a rest (by rw [h, hl])
    subst hl
    rw [trimRightChars_cons a rest ha, trimLeftChars, List.dropWhile_cons]
    simp [ha]

theorem trimLeftChars_idem (l : List Char) :
    trimLeftChars (trimLeftChars l) = trimLeftChars l :=
  dropWhile_idem _ _

theorem trimRightChars_idem (l : List Char) :
    trimRightChars (trimRightChars l) = trimRightChars l := by
  unfold trimRightChars
  rw [List.reverse_reverse, dropWhile_idem]

theorem jsTrim_idem (s : String) : jsTrim (jsTrim s) = jsTrim s := by
  show String.mk (trimRightChars (trimLeftChars (trimRightChars (trimLeftChars s.data))))
      = String.mk (trimRightChars (trimLeftChars s.data))
  rw [trimLeftChars_trimRightChars _ (trimLeftChars_idem _), trimRightChars_idem]

theorem schemaValidationErrors_nil_title (title : String) (descr : Option String)
    (h : schemaValidationErrors title descr = []) : title ≠ "" := by
  intro ht
  subst ht
  simp [schemaValidationErrors] at h

theorem updateValidationErrors_nil_title (upd : UpdateTodoRequest) (ttl : String)
    (h1 : upd.title = some ttl) (h : updateValidationErrors upd = []) :
    jsTrim ttl ≠ "" := by
  intro he
  rw [updateValidationErrors, h1] at h
  simp [he] at h

theorem applyUpdate_trimInv (t : Todo) (upd : UpdateTodoRequest) (now : Nat)
    (hti : todoTrimInv t = true) (herr : updateValidationErrors upd = []) :
    todoTrimInv (applyUpdate t upd now) = true := by
  simp only [todoTrimInv, applyUpdate, Bool.and_eq_true, beq_iff_eq] at hti ⊢
  obtain ⟨⟨ht1, ht2⟩, ht3⟩ := hti
  refine ⟨⟨?_, ?_⟩, ?_⟩
  · cases hu : upd.title with
    | none => simpa [hu] using ht1
    | some ttl => simp [hu, jsTrim_idem]
  · cases hu : upd.title with
    | none => simpa [hu] using ht2
    | some ttl =>
      simp only [hu, Option.map_some', Option.getD_some]
      simpa using updateValidationErrors_nil_title upd ttl hu herr
  · cases hd : upd.description with
    | none => simpa [hd] using ht3
    | some d => simp [hd, jsTrim_idem]

theorem createTodo_preserves_trimInv (s : StoreState) (now : Nat) (freshId : String)
    (req : CreateTodoRequest) (hinv : s.todos.all todoTrimInv = true) :
    (TodoController.createTodo s now freshId req).2.todos.all todoTrimInv = true := by
  unfold TodoController.createTodo
  cases hreq : req.title with
  | none => simpa using hinv
  | some title =>
    cases hc : (title == "" || (jsTrim title).length == 0) with
    | true => simpa [hc] using hinv
    | false =>
      simp only [hc, Bool.false_eq_true, if_false]
      unfold TodoService.createTodo mongooseSaveNew
      simp only [Option.map_map]
      cases herr : schemaValidationErrors (jsTrim (jsTrim title))
          (Option.map (jsTrim ∘ jsTrim) req.description) with
      | nil =>
        simp only [herr, List.all_append, Bool.and_eq_true]
        refine ⟨hinv, ?_⟩
        simp only [todoTrimInv, List.all_cons, List.all_nil, Bool.and_eq_true, beq_iff_eq]
        refine ⟨⟨⟨jsTrim_idem _, ?_⟩, ?_⟩, trivial⟩
        · simpa using schemaValidationErrors_nil_title _ _ herr
        · cases hd : req.description with
          | none => simp
          | some d => simp [Function.comp, jsTrim_idem]
      | cons e es =>
        simp only [herr]
        exact hinv

theorem updateTodo_preserves_trimInv (s : StoreState) (now : Nat) (id : String)
    (upd : UpdateTodoRequest) (hinv : s.todos.all todoTrimInv = true) :
    (TodoController.updateTodo s now id upd).2.todos.all todoTrimInv = true := by
  unfold TodoController.updateTodo
  cases hc : (upd.title.map (fun t0 => (jsTrim t0).length == 0)).getD false with
  | true => simpa [hc] using hinv
  | false =>
    simp only [hc, Bool.false_eq_true, if_false]
    unfold TodoService.updateTodo mongooseFindByIdAndUpdate
    cases hv : isValidObjectId id with
    | false => simpa [hv] using hinv
    | true =>
      simp only [hv, if_true]
      cases herr : updateValidationErrors
          ⟨upd.title.map jsTrim, upd.description.map jsTrim, upd.completed⟩ with
      | cons e es => simpa using hinv
      | nil =>
        cases hf : findTodo s id with
        | none => simpa using hinv
        | some t =>
          simp only [replaceTodo, List.all_eq_true]
          intro x hx
          rw [List.mem_map] at hx
          obtain ⟨u, hu, hux⟩ := hx
          subst hux
          by_cases hid : (u.id == (applyUpdate t
              ⟨upd.title.map jsTrim, upd.description.map jsTrim, upd.completed⟩ now).id) = true
          · simp only [hid, if_true]
            have htmem : t ∈ s.todos := List.mem_of_find?_eq_some hf
            have hti : todoTrimInv t = true := (List.all_eq_true.mp hinv) t htmem
            exact applyUpdate_trimInv t _ now hti herr
          · simp only [hid, if_false]
            exact (List.all_eq_true.mp hinv) u hu

/-- C1: for every create call and every update call that succeeds, the
stored title and stored description never begin or end with whitespace
(expressed as invariance under jsTrim) and the stored title is never empty,
and a create title that is empty after trimming yields the validation
failure instead of a stored record. -/
theorem c1_trim_invariant (s : StoreState) (now : Nat) (freshId : String)
    (req : CreateTodoRequest) (id : String) (upd : UpdateTodoRequest) (t0 : String)
    (hinv : s.todos.all todoTrimInv = true) :
    ((TodoController.createTodo s now freshId req).2.todos.all todoTrimInv = true) ∧
    ((TodoController.updateTodo s now id upd).2.todos.all todoTrimInv = true) ∧
    (req.title = some t0 → jsTrim t0 = "" →
      (TodoController.createTodo s now freshId req).1 =
        CreateResponse.validationFailed "Title is required") := by
  refine ⟨createTodo_preserves_trimInv s now freshId req hinv,
          updateTodo_preserves_trimInv s now id upd hinv, ?_⟩
  intro hreq htrim
  unfold TodoController.createTodo
  rw [hreq]
  have hlen : ((jsTrim t0).length == 0) = true := by rw [htrim]; rfl
  simp [hlen]

/-- Witness for C1 at a concrete store and request. -/
theorem c1_trim_invariant_witness :
    ((TodoController.createTodo ⟨[]⟩ 0 "0123456789abcdef01234567"
        ⟨some " Buy milk ", some " 2% "⟩).2.todos.all todoTrimInv = true) ∧
    ((TodoController.createTodo ⟨[]⟩ 0 "0123456789abcdef01234567"
        ⟨some "   ", none⟩).1 = CreateResponse.validationFailed "Title is required") :=
  ⟨(c1_trim_invariant ⟨[]⟩ 0 "0123456789abcdef01234567" ⟨some " Buy milk ", some " 2% "⟩
      "x" ⟨none, none, none⟩ "y" (by decide)).1,
   (c1_trim_invariant ⟨[]⟩ 0 "0123456789abcdef01234567" ⟨some "   ", none⟩
      "x" ⟨none, none, none⟩ "   " (by decide)).2.2 rfl (by decide)⟩

/-- C2: a create call whose title is absent or trims to empty, and an
update call whose title is present but trims to empty, fail with the
validation response and leave the store exactly as it was, with no storage
call made. -/
theorem c2_validation_before_storage (s : StoreState) (now : Nat) (freshId : String)
    (req : CreateTodoRequest) (id : String) (upd : UpdateTodoRequest) (t0 u0 : String) :
    (req.title = none →
      TodoController.createTodo s now freshId req =
        (CreateResponse.validationFailed "Title is required", s)) ∧
    (req.title = some t0 → jsTrim t0 = "" →
      TodoController.createTodo s now freshId req =
        (CreateResponse.validationFailed "Title is required", s)) ∧
    (upd.title = some u0 → jsTrim u0 = "" →
      TodoController.updateTodo s now id upd =
        (UpdateResponse.validationFailed "Title cannot be empty", s)) := by
  refine ⟨?_, ?_, ?_⟩
  · intro hreq
    unfold TodoController.createTodo
    rw [hreq]
  · intro hreq htrim
    unfold TodoController.createTodo
    rw [hreq]
    have hlen : ((jsTrim t0).length == 0) = true := by rw [htrim]; rfl
    simp [hlen]
  · intro hupd htrim
    unfold TodoController.updateTodo
    rw [hupd]
    have hlen : ((jsTrim u0).length == 0) = true := by rw [htrim]; rfl
    simp [hlen]

/-- Witness for C2 on concrete rejected requests. -/
theorem c2_validation_before_storage_witness :
    (TodoController.createTodo ⟨[]⟩ 0 "0123456789abcdef01234567" ⟨none, none⟩ =
      (CreateResponse.validationFailed "Title is required", ⟨[]⟩)) ∧
    (TodoController.createTodo ⟨[]⟩ 0 "0123456789abcdef01234567" ⟨some "  ", none⟩ =
      (CreateResponse.validationFailed "Title is required", ⟨[]⟩)) ∧
    (TodoController.updateTodo ⟨[]⟩ 0 "0123456789abcdef01234567" ⟨some "   ", none, some true⟩ =
      (UpdateResponse.validationFailed "Title cannot be empty", ⟨[]⟩)) :=
  ⟨(c2_validation_before_storage ⟨[]⟩ 0 "0123456789abcdef01234567" ⟨none, none⟩
      "x" ⟨none, none, none⟩ "a" "b").1 rfl,
   (c2_validation_before_storage ⟨[]⟩ 0 "0123456789abcdef01234567" ⟨some "  ", none⟩
      "x" ⟨none, none, none⟩ "  " "b").2.1 rfl (by decide),
   (c2_validation_before_storage ⟨[]⟩ 0 "0123456789abcdef01234567" ⟨none, none⟩
      "0123456789abcdef01234567" ⟨some "   ", none, some true⟩ "a" "   ").2.2 rfl (by decide)⟩

/-- C3: lookup by id never raises a storage error, and a malformed id and
an unmatched well-formed id produce the identical observable outcome, the
absent result. -/
theorem c3_getById_notFound_uniform (s : StoreState) (id : String) :
    ((TodoService.getTodoById s id).isOk = true) ∧
    (isValidObjectId id = false → TodoService.getTodoById s id = .ok none) ∧
    (findTodo s id = none → TodoService.getTodoById s id = .ok none) := by
  refine ⟨?_, ?_, ?_⟩ <;> unfold TodoService.getTodoById mongooseFindById
  · cases hv : isValidObjectId id <;> simp [hv, Except.isOk, Except.toBool]
  · intro hv
    simp [hv]
  · intro hf
    cases hv : isValidObjectId id <;> simp [hv, hf]

/-- Witness for C3: a malformed id and an unmatched valid id both give the
absent result with no raised error. -/
theorem c3_getById_notFound_uniform_witness :
    ((TodoService.getTodoById ⟨[]⟩ "not-a-valid-id-format").isOk = true) ∧
    (TodoService.getTodoById ⟨[]⟩ "not-a-valid-id-format" = .ok none) ∧
    (TodoService.getTodoById ⟨[]⟩ "0123456789abcdef01234567" = .ok none) :=
  ⟨(c3_getById_notFound_uniform ⟨[]⟩ "not-a-valid-id-format").1,
   (c3_getById_notFound_uniform ⟨[]⟩ "not-a-valid-id-format").2.1 (by decide),
   (c3_getById_notFound_uniform ⟨[]⟩ "0123456789abcdef01234567").2.2 (by decide)⟩

theorem findTodo_removeTodo (s : StoreState) (id : String) :
    findTodo (removeTodo s id) id = none := by
  unfold findTodo removeTodo
  rw [List.find?_eq_none]
  intro x hx
  rw [List.mem_filter] at hx
  simpa using hx.2

/-- C8: delete returns true exactly when the id is well formed and a stored
record matches it, so an invalid id and an unmatched id both yield false,
and a second delete of the same id always yields false. -/
theorem c8_delete_iff (s : StoreState) (id : String) :
    ((TodoService.deleteTodo s id).1 = true ↔
      (isValidObjectId id = true ∧ s.todos.any (fun t => t.id == id) = true)) ∧
    ((TodoService.deleteTodo (TodoService.deleteTodo s id).2 id).1 = false) := by
  constructor
  · unfold TodoService.deleteTodo
    cases hv : isValidObjectId id with
    | false => simp [hv]
    | true =>
      cases hf : findTodo s id with
      | none =>
        have hany : s.todos.any (fun t => t.id == id) = false := by
          rw [Bool.eq_false_iff]
          intro hc
          obtain ⟨x, hx, hpx⟩ := List.any_eq_true.mp hc
          have := List.find?_eq_none.mp hf x hx
          exact this hpx
        simp [hany]
      | some t =>
        have hf' : s.todos.find? (fun (u : Todo) => u.id == id) = some t := hf
        have hpt : (t.id == id) = true :=
          List.find?_some (p := fun (u : Todo) => u.id == id) hf'
        have hany : s.todos.any (fun t => t.id == id) = true :=
          List.any_eq_true.mpr ⟨t, List.mem_of_find?_eq_some hf', hpt⟩
        simp [hv, hany]
  · unfold TodoService.deleteTodo
    cases hv : isValidObjectId id with
    | false => simp [hv]
    | true =>
      cases hf : findTodo s id with
      | none => simp [hv, hf]
      | some t => simp [hv, hf, findTodo_removeTodo]

theorem find?_map_replace (l : List Todo) (id : String) (t t' : Todo)
    (ht : t'.id = id) (h : l.find? (fun u => u.id == id) = some t) :
    (l.map (fun u => if u.id == t'.id then t' else u)).find? (fun u => u.id == id)
      = some t' := by
  induction l with
  | nil => simp at h
  | cons a l ih =>
    cases ha : (a.id == id) with
    | true =>
      have ha2 : (a.id == t'.id) = true := by rw [ht]; exact ha
      have ht2 : (t'.id == id) = true := by rw [ht]; simp
      rw [List.map_cons, if_pos ha2]
      exact List.find?_cons_of_pos _ ht2
    | false =>
      have ha2 : (a.id == t'.id) = false := by rw [ht]; exact ha
      rw [List.map_cons, if_neg (by simp [ha2])]
      rw [List.find?_cons_of_neg _ (by simp [ha])]
      apply ih
      rwa [List.find?_cons_of_neg _ (by simp [ha])] at h

/-- C5: a single toggle flips the completed flag of an existing todo, and
toggling twice with no intervening writes returns the flag to its original
value. -/
theorem c5_toggle_involution (s : StoreState) (id : String) (t : Todo)
    (now1 now2 : Nat) (hv : isValidObjectId id = true) (hf : findTodo s id = some t) :
    ((TodoService.toggleTodo s now1 id).1.map Todo.completed = some (!t.completed)) ∧
    ((TodoService.toggleTodo (TodoService.toggleTodo s now1 id).2 now2 id).1.map
        Todo.completed = some t.completed) := by
  have hid : t.id = id := by
    have hf' : s.todos.find? (fun u => u.id == id) = some t := hf
    have h2 := List.find?_some hf'
    simpa using h2
  have h1 : TodoService.toggleTodo s now1 id =
      (some { t with completed := !t.completed, updatedAt := now1 },
       replaceTodo s { t with completed := !t.completed, updatedAt := now1 }) := by
    unfold TodoService.toggleTodo
    simp [hv, hf]
  have hf2 : findTodo (replaceTodo s { t with completed := !t.completed, updatedAt := now1 }) id
      = some { t with completed := !t.completed, updatedAt := now1 } := by
    unfold findTodo replaceTodo
    exact find?_map_replace s.todos id t _ hid hf
  have h2 : TodoService.toggleTodo
      (replaceTodo s { t with completed := !t.completed, updatedAt := now1 }) now2 id =
      (some { t with completed := !(!t.completed), updatedAt := now2 },
       replaceTodo (replaceTodo s { t with completed := !t.completed, updatedAt := now1 })
         { t with completed := !(!t.completed), updatedAt := now2 }) := by
    unfold TodoService.toggleTodo
    simp [hv, hf2]
  refine ⟨by rw [h1]; rfl, ?_⟩
  rw [h1]
  show (TodoService.toggleTodo
      (replaceTodo s { t with completed := !t.completed, updatedAt := now1 }) now2 id).1.map
      Todo.completed = some t.completed
  rw [h2]
  show some (!(!t.completed)) = some t.completed
  rw [Bool.not_not]

/-- Witness for C5 on a one-element store. -/
theorem c5_toggle_involution_witness :
    ((TodoService.toggleTodo ⟨[⟨"0123456789abcdef01234567", "A", none, false, 0, 0⟩]⟩
        1 "0123456789abcdef01234567").1.map Todo.completed = some true) ∧
    ((TodoService.toggleTodo
        (TodoService.toggleTodo ⟨[⟨"0123456789abcdef01234567", "A", none, false, 0, 0⟩]⟩
          1 "0123456789abcdef01234567").2 2 "0123456789abcdef01234567").1.map
        Todo.completed = some false) :=
  c5_toggle_involution ⟨[⟨"0123456789abcdef01234567", "A", none, false, 0, 0⟩]⟩
    "0123456789abcdef01234567" ⟨"0123456789abcdef01234567", "A", none, false, 0, 0⟩
    1 2 (by decide) (by decide)

/-- C9: toggle changes only the completed flag and the update time of the
matching record; its id, title, description and creation time are
unchanged, and every other record of the store is mapped to itself. -/
theorem c9_toggle_frame (s : StoreState) (now : Nat) (id : String) (t : Todo)
    (hv : isValidObjectId id = true) (hf : findTodo s id = some t) :
    ((TodoService.toggleTodo s now id).1 =
      some ⟨t.id, t.title, t.description, !t.completed, t.createdAt, now⟩) ∧
    ((TodoService.toggleTodo s now id).2.todos =
      s.todos.map (fun u =>
        if u.id == t.id then ⟨t.id, t.title, t.description, !t.completed, t.createdAt, now⟩
        else u)) := by
  unfold TodoService.toggleTodo
  simp only [hv, if_true, hf]
  exact ⟨trivial, rfl⟩

/-- Witness for C9 on a two-element store. -/
theorem c9_toggle_frame_witness :
    ((TodoService.toggleTodo ⟨[⟨"0123456789abcdef01234567", "A", some "d", true, 3, 4⟩,
        ⟨"abcdef012345abcdef012345", "B", none, false, 1, 1⟩]⟩ 9
        "0123456789abcdef01234567").1 =
      some ⟨"0123456789abcdef01234567", "A", some "d", false, 3, 9⟩) ∧
    ((TodoService.toggleTodo ⟨[⟨"0123456789abcdef01234567", "A", some "d", true, 3, 4⟩,
        ⟨"abcdef012345abcdef012345", "B", none, false, 1, 1⟩]⟩ 9
        "0123456789abcdef01234567").2.todos =
      [⟨"0123456789abcdef01234567", "A", some "d", true, 3, 4⟩,
       ⟨"abcdef012345abcdef012345", "B", none, false, 1, 1⟩].map (fun u =>
        if u.id == "0123456789abcdef01234567" then
          ⟨"0123456789abcdef01234567", "A", some "d", false, 3, 9⟩
        else u)) :=
  c9_toggle_frame ⟨[⟨"0123456789abcdef01234567", "A", some "d", true, 3, 4⟩,
      ⟨"abcdef012345abcdef012345", "B", none, false, 1, 1⟩]⟩ 9
    "0123456789abcdef01234567" ⟨"0123456789abcdef01234567", "A", some "d", true, 3, 4⟩
    (by decide) (by decide)

/-- C10: an update whose request carries none of title, description and
completed still succeeds on an existing id, refreshes the update time, and
leaves all other stored fields unchanged. -/
theorem c10_empty_update (s : StoreState) (now : Nat) (id : String) (t : Todo)
    (hv : isValidObjectId id = true) (hf : findTodo s id = some t) :
    TodoController.updateTodo s now id ⟨none, none, none⟩ =
      (UpdateResponse.updated ⟨t.id, t.title, t.description, t.completed, t.createdAt, now⟩,
       replaceTodo s ⟨t.id, t.title, t.description, t.completed, t.createdAt, now⟩) := by
  unfold TodoController.updateTodo TodoService.updateTodo mongooseFindByIdAndUpdate
  simp only [hv, if_true, hf]
  rfl

/-- Witness for C10 on a one-element store. -/
theorem c10_empty_update_witness :
    TodoController.updateTodo ⟨[⟨"0123456789abcdef01234567", "A", some "d", true, 3, 4⟩]⟩ 7
        "0123456789abcdef01234567" ⟨none, none, none⟩ =
      (UpdateResponse.updated ⟨"0123456789abcdef01234567", "A", some "d", true, 3, 7⟩,
       replaceTodo ⟨[⟨"0123456789abcdef01234567", "A", some "d", true, 3, 4⟩]⟩
         ⟨"0123456789abcdef01234567", "A", some "d", true, 3, 7⟩) :=
  c10_empty_update ⟨[⟨"0123456789abcdef01234567", "A", some "d", true, 3, 4⟩]⟩ 7
    "0123456789abcdef01234567" ⟨"0123456789abcdef01234567", "A", some "d", true, 3, 4⟩
    (by decide) (by decide)

/-- C4: updates have field-wise semantics: a successful update changes
exactly the fields present in the request (their values trimmed) and keeps
id, creation time and every absent field; in particular an update that only
sets completed to true leaves title and description unchanged. -/
theorem c4_update_partial_semantics (s : StoreState) (now : Nat) (id : String)
    (upd : UpdateTodoRequest) (t t' : Todo) (s' : StoreState)
    (hv : isValidObjectId id = true) (hf : findTodo s id = some t) :
    (TodoController.updateTodo s now id upd = (UpdateResponse.updated t', s') →
      t'.id = t.id ∧ t'.createdAt = t.createdAt ∧
      t'.title = (upd.title.map jsTrim).getD t.title ∧
      t'.description = (match upd.description with
        | some d => some (jsTrim d)
        | none => t.description) ∧
      t'.completed = upd.completed.getD t.completed ∧
      t'.updatedAt = now) ∧
    (TodoController.updateTodo s now id ⟨none, none, some true⟩ =
      (UpdateResponse.updated ⟨t.id, t.title, t.description, true, t.createdAt, now⟩,
       replaceTodo s ⟨t.id, t.title, t.description, true, t.createdAt, now⟩)) := by
  constructor
  · intro h
    unfold TodoController.updateTodo at h
    cases hg : (upd.title.map (fun t0 => (jsTrim t0).length == 0)).getD false with
    | true => simp [hg] at h
    | false =>
      rw [if_neg (by simp [hg])] at h
      unfold TodoService.updateTodo mongooseFindByIdAndUpdate at h
      rw [if_pos hv, if_pos hv] at h
      cases herr : updateValidationErrors
          ⟨upd.title.map jsTrim, upd.description.map jsTrim, upd.completed⟩ with
      | cons e es => simp [herr] at h
      | nil =>
        rw [herr, hf] at h
        simp only [Prod.mk.injEq, UpdateResponse.updated.injEq] at h
        obtain ⟨ht', _⟩ := h
        subst ht'
        refine ⟨rfl, rfl, ?_, ?_, rfl, rfl⟩
        · cases hu : upd.title with
          | none => simp [applyUpdate, hu]
          | some ttl => simp [applyUpdate, hu, jsTrim_idem]
        · cases hd : upd.description with
          | none => simp [applyUpdate, hd]
          | some d => simp [applyUpdate, hd, jsTrim_idem]
  · unfold TodoController.updateTodo TodoService.updateTodo mongooseFindByIdAndUpdate
    simp only [hv, if_true, hf]
    rfl

/-- Witness for C4: setting only completed keeps title and description. -/
theorem c4_update_partial_semantics_witness :
    TodoController.updateTodo ⟨[⟨"0123456789abcdef01234567", "A", some "d", false, 3, 4⟩]⟩ 8
        "0123456789abcdef01234567" ⟨none, none, some true⟩ =
      (UpdateResponse.updated ⟨"0123456789abcdef01234567", "A", some "d", true, 3, 8⟩,
       replaceTodo ⟨[⟨"0123456789abcdef01234567", "A", some "d", false, 3, 4⟩]⟩
         ⟨"0123456789abcdef01234567", "A", some "d", true, 3, 8⟩) :=
  (c4_update_partial_semantics ⟨[⟨"0123456789abcdef01234567", "A", some "d", false, 3, 4⟩]⟩ 8
    "0123456789abcdef01234567" ⟨none, none, some true⟩
    ⟨"0123456789abcdef01234567", "A", some "d", false, 3, 4⟩
    ⟨"0123456789abcdef01234567", "A", some "d", true, 3, 8⟩
    (replaceTodo ⟨[⟨"0123456789abcdef01234567", "A", some "d", false, 3, 4⟩]⟩
      ⟨"0123456789abcdef01234567", "A", some "d", true, 3, 8⟩)
    (by decide) (by decide)).2

/-- C6: creating a todo with title A and description B succeeds, stores the
record with completed false and equal timestamps, and a subsequent lookup
of the assigned id returns exactly the stored record. -/
theorem c6_create_get_roundtrip (s : StoreState) (now : Nat) (freshId : String)
    (hv : isValidObjectId freshId = true)
    (hfresh : s.todos.all (fun u => !(u.id == freshId)) = true) :
    (TodoController.createTodo s now freshId ⟨some "A", some "B"⟩ =
      (CreateResponse.created ⟨freshId, "A", some "B", false, now, now⟩,
       ⟨s.todos ++ [⟨freshId, "A", some "B", false, now, now⟩]⟩)) ∧
    (TodoService.getTodoById ⟨s.todos ++ [⟨freshId, "A", some "B", false, now, now⟩]⟩
        freshId = .ok (some ⟨freshId, "A", some "B", false, now, now⟩)) ∧
    ((⟨freshId, "A", some "B", false, now, now⟩ : Todo).createdAt =
      (⟨freshId, "A", some "B", false, now, now⟩ : Todo).updatedAt) := by
  refine ⟨rfl, ?_, rfl⟩
  unfold TodoService.getTodoById mongooseFindById
  rw [if_pos hv, if_pos hv]
  unfold findTodo
  rw [List.find?_append]
  have h1 : s.todos.find? (fun u => u.id == freshId) = none := by
    rw [List.find?_eq_none]
    intro x hx
    have h2 := (List.all_eq_true.mp hfresh) x hx
    simp at h2
    simp [h2]
  rw [h1, List.find?_cons_of_pos _ (by simp)]
  rfl

/-- Witness for C6 on the empty store. -/
theorem c6_create_get_roundtrip_witness :
    (TodoController.createTodo ⟨[]⟩ 5 "0123456789abcdef01234567" ⟨some "A", some "B"⟩ =
      (CreateResponse.created ⟨"0123456789abcdef01234567", "A", some "B", false, 5, 5⟩,
       ⟨[] ++ [⟨"0123456789abcdef01234567", "A", some "B", false, 5, 5⟩]⟩)) ∧
    (TodoService.getTodoById
        ⟨[] ++ [⟨"0123456789abcdef01234567", "A", some "B", false, 5, 5⟩]⟩
        "0123456789abcdef01234567" =
      .ok (some ⟨"0123456789abcdef01234567", "A", some "B", false, 5, 5⟩)) ∧
    ((⟨"0123456789abcdef01234567", "A", some "B", false, 5, 5⟩ : Todo).createdAt =
      (⟨"0123456789abcdef01234567", "A", some "B", false, 5, 5⟩ : Todo).updatedAt) :=
  c6_create_get_roundtrip ⟨[]⟩ 5 "0123456789abcdef01234567" (by decide) (by decide)

theorem le_ceil_mul (a b : ℕ) (h : 0 < b) : a ≤ (a + b - 1) / b * b := by
  have h1 := le_smul_ceilDiv (β := ℕ) h (b := a)
  rw [Nat.ceilDiv_eq_add_pred_div, smul_eq_mul, Nat.mul_comm] at h1
  exact h1

theorem ceil_mul_lt (a b : ℕ) (h : 0 < b) : (a + b - 1) / b * b < a + b := by
  have h1 : (a + b - 1) / b * b ≤ a + b - 1 := Nat.div_mul_le_self _ _
  have h2 : a + b - 1 < a + b := Nat.sub_lt (by omega) (by omega)
  exact lt_of_le_of_lt h1 h2

/-- C7: for a page of at least 1 and a limit between 1 and 100 the
paginated query takes its items after dropping (page - 1) * limit records
of the sorted filtered sequence, its total is the count under the same
filter, its totalPages is the ceiling of total over limit (characterized by
the two inequalities), and on the static 25-item set with limit 10 the
third page has 5 items, totalPages 3 and hasNext false. -/
theorem c7_pagination_arithmetic (s : StoreState) (page limit : Nat)
    (status : Option TodoStatus) (hp : 1 ≤ page) (hl1 : 1 ≤ limit) (hl2 : limit ≤ 100) :
    ((TodoService.getTodosPaginated s page limit status).todos =
      (((sortByCreatedAtDesc s.todos).filter (statusFilter status)).drop
        ((page - 1) * limit)).take limit) ∧
    ((TodoService.getTodosPaginated s page limit status).total =
      (s.todos.filter (statusFilter status)).length) ∧
    ((TodoService.getTodosPaginated s page limit status).total ≤
      (TodoService.getTodosPaginated s page limit status).totalPages * limit) ∧
    ((TodoService.getTodosPaginated s page limit status).totalPages * limit <
      (TodoService.getTodosPaginated s page limit status).total + limit) ∧
    ((TodoController.getPaginatedTodos store25 3 10 none).map
      (fun r => (r.1.length, r.2.totalPages, r.2.hasNext)) = some (5, 3, false)) :=
  ⟨rfl, rfl,
   le_ceil_mul (s.todos.filter (statusFilter status)).length limit (by omega),
   ceil_mul_lt (s.todos.filter (statusFilter status)).length limit (by omega),
   by decide⟩

/-- Witness for C7 at the concrete 25-item store. -/
theorem c7_pagination_arithmetic_witness :
    ((TodoService.getTodosPaginated store25 3 10 none).total ≤
      (TodoService.getTodosPaginated store25 3 10 none).totalPages * 10) ∧
    ((TodoController.getPaginatedTodos store25 3 10 none).map
      (fun r => (r.1.length, r.2.totalPages, r.2.hasNext)) = some (5, 3, false)) :=
  ⟨(c7_pagination_arithmetic store25 3 10 none (by decide) (by decide) (by decide)).2.2.1,
   (c7_pagination_arithmetic store25 3 10 none (by decide) (by decide) (by decide)).2.2.2.2⟩

end TodoApp
